import Mathlib

/-!
Verification development for the shark-tank pitch-session server
(`server/sharks.py`, `server/ai_client.py`, `server/session.py`,
`server/app.py`).  The Python code is shallowly embedded: dictionaries
become structures or total functions with `Option` fields (a missing
dictionary key is `none`, `dict.get` defaults are applied at the read
site exactly where the source applies them), Python integers become
`Int`/`Nat`, Python floats become `ℚ` (exact arithmetic; only used in
comparisons and stored terms, no claim depends on binary rounding),
and the external AI collaborator's reply is passed in as an
`Option String` argument (`none` = no configured client or an API
exception, both of which the source turns into the same fallback path).
Random draws (`random.random()`, `random.choice`, `random.randint`)
are passed in as explicit arguments.  Timestamps, TTS audio payloads
and display names inside event payloads are dropped from the model:
no verified property mentions them.
-/

namespace SharkTank

/-- Substring test on character lists: `listInfix pat hay` is `true`
iff `pat` occurs contiguously in `hay`.  Mirrors Python's
`pat in hay` for strings (the empty pattern is contained in
everything, as in Python). -/
def listInfix (pat : List Char) : List Char → Bool
  | [] => pat.isEmpty
  | c :: t => pat.isPrefixOf (c :: t) || listInfix pat t

/-- Python `sub in s` on strings. -/
def containsStr (s sub : String) : Bool := listInfix sub.data s.data

/-- Python `str.lower()` (character-wise; exact for the ASCII texts the
server handles). -/
def lowerStr (s : String) : String := ⟨s.data.map Char.toLower⟩

/-- Python `s[:n]` on strings. -/
def takeStr (n : Nat) (s : String) : String := ⟨s.data.take n⟩

/-- Python `' '.join(parts)`. -/
def joinSpace (parts : List String) : String := String.intercalate " " parts

/-- Numeric value of a list of decimal digit characters. -/
def natOfDigits (cs : List Char) : Nat :=
  cs.foldl (fun n c => n * 10 + (c.toNat - 48)) 0

/-- Python `int(s)` restricted to digit strings: `none` models the
`ValueError` raised on a non-digit or empty string. -/
def parseNatDigits (cs : List Char) : Option Nat :=
  if cs ≠ [] ∧ cs.all Char.isDigit then some (natOfDigits cs) else none

/-- Python `int(s)` for a stripped decimal string with an optional
sign (underscored literals are not modelled; no pitch field in any
claim uses them). -/
def pyInt (s : String) : Option Int :=
  match (s.trim).data with
  | '+' :: rest => (parseNatDigits rest).map Int.ofNat
  | '-' :: rest => (parseNatDigits rest).map (fun n => -(n : Int))
  | other => (parseNatDigits other).map Int.ofNat

/-- Rational division, written through `Rat.divInt` (instead of the
field `/`, whose `Rat.inv` is `@[irreducible]`) so that concrete
instances evaluate; `qdiv_eq_div` proves it is exactly `/`. -/
def qdiv (a b : ℚ) : ℚ := Rat.divInt (a.num * b.den) (a.den * b.num)

/-- `qdiv` is ordinary rational division. -/
theorem qdiv_eq_div (a b : ℚ) : qdiv a b = a / b := (Rat.div_def' a b).symm

/-- Python `float(s)` for a string of digits and dots, as an exact
rational; `none` models the `ValueError` on `""`, `"."`, `"1.2.3"`. -/
def pyFloatQ (cs : List Char) : Option ℚ :=
  let dots := (cs.filter (fun c => c = '.')).length
  if dots = 0 then (parseNatDigits cs).map (fun n => (n : ℚ))
  else if dots = 1 then
    let ip := cs.takeWhile (fun c => c ≠ '.')
    let fp := (cs.dropWhile (fun c => c ≠ '.')).drop 1
    if ip.isEmpty ∧ fp.isEmpty then none
    else if ip.all Char.isDigit ∧ fp.all Char.isDigit then
      some ((natOfDigits ip : ℚ) + qdiv (natOfDigits fp : ℚ) ((10 : ℚ) ^ fp.length))
    else none
  else none

/-- `sharks.py` `SHARK_IDS`. -/
def SHARK_IDS : List String := ["marcus", "victor", "elena", "richard", "daniel"]

/-- `sharks.py` `SHARK_NAMES`. -/
def SHARK_NAMES : List (String × String) :=
  [("marcus", "Marcus Kellan"), ("victor", "Victor Slate"), ("elena", "Elena Brooks"),
   ("richard", "Richard Hale"), ("daniel", "Daniel Frost")]

/-- `SharkManager.get_shark_name`: `SHARK_NAMES.get(shark_id, shark_id)`. -/
def get_shark_name (shark_id : String) : String :=
  ((SHARK_NAMES.find? (fun p => p.1 = shark_id)).map (fun p => p.2)).getD shark_id

/-- `sharks.py` `POSITIVE_MODIFIERS`. -/
def POSITIVE_MODIFIERS : List (String × List (String × Int)) :=
  [("revenue",  [("marcus", 15), ("victor", 25), ("elena", 10), ("richard", 5),  ("daniel", 15)]),
   ("patents",  [("marcus", 20), ("victor", 10), ("elena", 25), ("richard", 5),  ("daniel", 15)]),
   ("users",    [("marcus", 20), ("victor", 15), ("elena", 10), ("richard", 20), ("daniel", 20)]),
   ("tech",     [("marcus", 25), ("victor", 5),  ("elena", 0),  ("richard", 10), ("daniel", 30)]),
   ("retail",   [("marcus", 5),  ("victor", 10), ("elena", 30), ("richard", 10), ("daniel", 5)]),
   ("brand",    [("marcus", 10), ("victor", 5),  ("elena", 15), ("richard", 30), ("daniel", 10)]),
   ("recurring",[("marcus", 20), ("victor", 20), ("elena", 10), ("richard", 15), ("daniel", 25)]),
   ("growth",   [("marcus", 20), ("victor", 15), ("elena", 15), ("richard", 20), ("daniel", 15)])]

/-- `sharks.py` `NEGATIVE_MODIFIERS`. -/
def NEGATIVE_MODIFIERS : List (String × List (String × Int)) :=
  [("no_revenue",     [("marcus", -15), ("victor", -30), ("elena", -20), ("richard", -10), ("daniel", -10)]),
   ("no_protection",  [("marcus", -20), ("victor", -10), ("elena", -25), ("richard", -5),  ("daniel", -15)]),
   ("crowded_market", [("marcus", -10), ("victor", -15), ("elena", -15), ("richard", -10), ("daniel", -20)]),
   ("high_valuation", [("marcus", -15), ("victor", -25), ("elena", -20), ("richard", -10), ("daniel", -15)])]

/-- `TABLE[category].get(shark_id, dflt)` for the two modifier tables. -/
def modLookup (table : List (String × List (String × Int))) (category shark_id : String)
    (dflt : Int) : Int :=
  match table.find? (fun p => p.1 = category) with
  | some (_, tbl) => ((tbl.find? (fun p => p.1 = shark_id)).map (fun p => p.2)).getD dflt
  | none => dflt

/-- `POSITIVE_MODIFIERS[cat].get(shark_id, dflt)`. -/
def posMod (category shark_id : String) (dflt : Int) : Int :=
  modLookup POSITIVE_MODIFIERS category shark_id dflt

/-- `NEGATIVE_MODIFIERS[cat].get(shark_id, dflt)`. -/
def negMod (category shark_id : String) (dflt : Int) : Int :=
  modLookup NEGATIVE_MODIFIERS category shark_id dflt

/-- `sharks.py` `OUT_REASONS` (values with `'` written as `\x27`). -/
def OUT_REASONS : List (String × List String) :=
  [("marcus",
    ["I just don\x27t see how this scales. I\x27m out.",
     "You don\x27t know your numbers well enough. For that reason, I\x27m out.",
     "This isn\x27t a technology play I can get behind. I\x27m out.",
     "The valuation just doesn\x27t work for me. I\x27m out.",
     "I need to see more traction before I can invest. I\x27m out."]),
   ("victor",
    ["There\x27s no money here. I\x27m out.",
     "I can\x27t make the numbers work. You\x27re dead to me. I\x27m out.",
     "You\x27re not offering me enough for my risk. I\x27m out.",
     "Without revenue, this is just a dream. I\x27m out.",
     "I don\x27t see a path to profitability. I\x27m out."]),
   ("elena",
    ["I don\x27t think this is a retail product. I\x27m out.",
     "I just don\x27t see it on the shelves. I\x27m out.",
     "This isn\x27t my expertise, and I can\x27t add value. I\x27m out.",
     "Without a patent, you\x27re vulnerable. I\x27m out.",
     "I don\x27t connect with this product. I\x27m out."]),
   ("richard",
    ["I\x27m not feeling the passion here. I\x27m out.",
     "This doesn\x27t excite me as a brand opportunity. I\x27m out.",
     "I can\x27t see myself using this. I\x27m out.",
     "The customer experience isn\x27t compelling. I\x27m out.",
     "I need to see more disruption. I\x27m out."]),
   ("daniel",
    ["I\x27m going to step aside on this one. I\x27m out.",
     "I don\x27t think I\x27m the right partner for you. I\x27m out.",
     "I wish you the best, but I can\x27t add value here. I\x27m out.",
     "The tech doesn\x27t convince me. I\x27m out.",
     "I\x27m going to let my partners fight for this one. I\x27m out."])]

/-- `SharkManager.get_out_reason`: `random.choice` over the shark's
reason pool, with the draw supplied as an index (taken modulo the pool
size). -/
def get_out_reason (shark_id : String) (choiceIdx : Nat) : String :=
  let reasons := ((OUT_REASONS.find? (fun p => p.1 = shark_id)).map (fun p => p.2)).getD
    ["I\x27m out."]
  reasons.getD (choiceIdx % reasons.length) ""

/-- Pitch data dictionary (`pitchData` in `session.py` sessions).
`none` models a missing key; numeric JSON fields are rationals. -/
structure PitchData where
  amountRaising : Option ℚ
  equityPercent : Option ℚ
  proofType : Option String
  proofValue : Option String
  companyDescription : Option String
  whyNow : Option String
deriving Repr, DecidableEq

/-- `SharkManager.calculate_initial_confidence` from `sharks.py`.
The float valuation `amount / (equity / 100)` is computed exactly in
`ℚ`. -/
def calculate_initial_confidence (shark_id : String) (p : PitchData) : Int :=
  let base : Int := 50
  let amount : ℚ := p.amountRaising.getD 0
  let equity : ℚ := p.equityPercent.getD 10
  let valuation : ℚ := if equity > 0 then qdiv amount (qdiv equity 100) else amount * 10
  let proof_type := p.proofType.getD "idea"
  let proof_value := p.proofValue.getD ""
  let base := if valuation > 5000000 ∧ proof_type = "idea"
    then base + negMod "high_valuation" shark_id (-15) else base
  let base :=
    if proof_type = "revenue" then
      let base := base + posMod "revenue" shark_id 10
      let revenue : Option Int := if proof_value = "" then some 0 else pyInt proof_value
      match revenue with
      | some r => base + (if r > 100000 then 10 else 0) + (if r > 500000 then 10 else 0)
      | none => base
    else if proof_type = "users" then base + posMod "users" shark_id 10
    else if proof_type = "customers" then base + posMod "revenue" shark_id 5
    else if proof_type = "idea" then base + negMod "no_revenue" shark_id (-15)
    else base
  let desc := lowerStr ((p.companyDescription.getD "") ++ " " ++ (p.whyNow.getD ""))
  let base := if ["software", "app", "platform", "saas", "ai", "tech", "algorithm"].any
      (fun w => containsStr desc w) then base + posMod "tech" shark_id 10 else base
  let base := if ["retail", "store", "consumer", "product", "packaging", "shelf"].any
      (fun w => containsStr desc w) then base + posMod "retail" shark_id 10 else base
  let base := if ["brand", "experience", "lifestyle", "community"].any
      (fun w => containsStr desc w) then base + posMod "brand" shark_id 10 else base
  let base := if ["subscription", "recurring", "monthly", "saas", "mrr"].any
      (fun w => containsStr desc w) then base + posMod "recurring" shark_id 10 else base
  let base := if containsStr desc "patent" then base + posMod "patents" shark_id 10 else base
  max 0 (min 100 base)

/-- `SharkManager.update_confidence_from_transcript` from `sharks.py`.
The transcript is the list of the entries' `text` fields; Python's
floor division `// 2` is `Int.fdiv`.  An empty transcript returns the
current confidence unchanged (and unclamped), exactly as the source
does. -/
def update_confidence_from_transcript (shark_id : String) (transcript : List String)
    (current_confidence : Int) : Int :=
  match transcript with
  | [] => current_confidence
  | _ =>
    let text := lowerStr (joinSpace transcript)
    let delta : Int := 0
    let delta := if containsStr text "patent" || containsStr text "patented" ||
        containsStr text "intellectual property"
      then delta + (posMod "patents" shark_id 10).fdiv 2 else delta
    let delta := if containsStr text "million" &&
        (containsStr text "revenue" || containsStr text "sales")
      then delta + posMod "revenue" shark_id 15 else delta
    let delta := if containsStr text "growing" || containsStr text "growth" ||
        containsStr text "doubled"
      then delta + (posMod "growth" shark_id 10).fdiv 2 else delta
    let delta := if containsStr text "recurring" || containsStr text "subscription" ||
        containsStr text "monthly"
      then delta + (posMod "recurring" shark_id 10).fdiv 2 else delta
    let delta := if containsStr text "no revenue" || containsStr text "haven\x27t sold" ||
        containsStr text "pre-revenue"
      then delta + (negMod "no_revenue" shark_id (-15)).fdiv 2 else delta
    let delta := if containsStr text "no patent" || containsStr text "not patented"
      then delta + (negMod "no_protection" shark_id (-10)).fdiv 2 else delta
    let delta := if containsStr text "competitive" || containsStr text "crowded" ||
        containsStr text "many competitors"
      then delta + (negMod "crowded_market" shark_id (-10)).fdiv 2 else delta
    max 0 (min 100 (current_confidence + delta))

/-- The `context` dictionary consulted by `SharkManager.should_go_out`. -/
structure GoOutContext where
  questionCount : Int
  rejectedRoyalty : Bool
  mentionedRoyalty : Bool
deriving Repr, DecidableEq

/-- The empty context `{}` (`questionCount` defaults to 0, the royalty
flags to falsy). -/
def emptyCtx : GoOutContext := ⟨0, false, false⟩

/-- `SharkManager.should_go_out` from `sharks.py`.  The single
`random.random()` draw an evaluation can make is the argument
`rand` (a rational in `[0,1)`). -/
def should_go_out (shark_id : String) (confidence : Int) (phase : String)
    (ctx : GoOutContext) (rand : ℚ) : Bool :=
  if phase = "pitch" then false
  else if ctx.questionCount < 2 then false
  else if confidence < 15 ∧ ctx.questionCount ≥ 2 then true
  else if ctx.questionCount ≥ 4 ∧ confidence < 30 then true
  else if shark_id = "victor" ∧ ctx.rejectedRoyalty then decide (rand < Rat.divInt 6 10)
  else if shark_id = "marcus" ∧ ctx.mentionedRoyalty then decide (rand < Rat.divInt 4 10)
  else false

/-- `AIClient._get_fallback_response` tables from `ai_client.py`. -/
def FALLBACK_RESPONSES : List (String × List String) :=
  [("marcus",
    ["Walk me through the unit economics. What\x27s your CAC and LTV?",
     "How does this scale? What happens when you hit a million users?",
     "Who\x27s your biggest competitor and why will you crush them?"]),
   ("victor",
    ["What are your sales? I need to see the numbers.",
     "How much does it cost you to make one unit? What\x27s your margin?",
     "Why should I invest my money here instead of a boring index fund?"]),
   ("elena",
    ["Is this patented? Do you have any protection?",
     "Have you sold this in retail stores yet?",
     "Can you demonstrate how this works for the customer?"]),
   ("richard",
    ["Tell me about the customer experience from start to finish.",
     "What\x27s the story behind this brand? Why does it exist?",
     "How are you disrupting the way things are currently done?"]),
   ("daniel",
    ["Tell me about yourself. How did you get here?",
     "Is this recurring revenue or one-time purchases?",
     "What keeps you up at night about this business?"])]

/-- `AIClient._get_fallback_response`: `random.choice` over the
shark's pool, draw supplied as an index. -/
def get_fallback_response (shark_id : String) (choiceIdx : Nat) : String :=
  let pool := ((FALLBACK_RESPONSES.find? (fun p => p.1 = shark_id)).map (fun p => p.2)).getD
    ["Tell me more about your business."]
  pool.getD (choiceIdx % pool.length) ""

/-- `AIClient._get_decline_fallback` from `ai_client.py`. -/
def get_decline_fallback (shark_id : String) : String :=
  (([("marcus", "You\x27re making a mistake. Good luck."),
     ("victor", "Fine. Your loss. This deal is dead to me."),
     ("elena", "I wish you the best. I hope you find the right partner."),
     ("richard", "I respect your decision. Keep chasing that dream."),
     ("daniel", "I understand. I really do wish you success.")].find?
      (fun p => p.1 = shark_id)).map (fun p => p.2)).getD "Good luck."

/-- `AIClient._get_counter_fallback` from `ai_client.py`. -/
def get_counter_fallback (shark_id : String) : String :=
  (([("marcus", "That\x27s not going to work for me. My offer stands."),
     ("victor", "You\x27re pushing too hard. Take the deal or leave it."),
     ("elena", "I appreciate the negotiation, but I need my terms."),
     ("richard", "I like the hustle, but let\x27s meet somewhere in the middle."),
     ("daniel", "I want to make this work. Let me think about it.")].find?
      (fun p => p.1 = shark_id)).map (fun p => p.2)).getD "Let me think about that."

/-- The `accept_phrases` list of `AIClient.generate_counter_response`. -/
def ACCEPT_PHRASES : List String :=
  ["deal", "accept", "you\x27ve got", "shake on it", "agreed",
   "let\x27s do it", "i\x27m in", "done"]

/-- `AIClient.generate_counter_response` from `ai_client.py`, returning
`(response_text, accepts_counter)`.  The argument `gen` is the AI
collaborator's reply: `none` covers both "no configured client" and
"the API call raised", the two paths on which the source substitutes
`_get_counter_fallback` and returns `False`. -/
def generate_counter_response (shark_id : String) (gen : Option String) : String × Bool :=
  match gen with
  | none => (get_counter_fallback shark_id, false)
  | some response_text =>
    let lower := lowerStr response_text
    let accepts := ACCEPT_PHRASES.any (fun phrase => containsStr lower phrase)
    let accepts := if containsStr lower "no deal" then false else accepts
    (response_text, accepts)

/-- An offer dictionary (`session.py` offers).  `id` and `status` are
filled by `SessionManager.add_offer` (`""` in a freshly parsed draft);
the `timestamp` field is dropped (no claim mentions it). -/
structure Offer where
  id : String
  sharkId : String
  amount : ℚ
  equity : ℚ
  royalty : Option ℚ
  royaltyUntil : Option ℚ
  conditions : List String
  status : String
deriving Repr, DecidableEq

/-- Splits off the first maximal run of characters satisfying `p`:
returns `(run, suffix after the run)`, or `none` if no character
satisfies `p`.  This is `re.search` for a pattern of the shape
`[class]+` (leftmost match, greedy). -/
def splitFirstRun (p : Char → Bool) : List Char → Option (List Char × List Char)
  | [] => none
  | c :: cs =>
    if p c then some ((c :: cs).takeWhile p, (c :: cs).dropWhile p)
    else splitFirstRun p cs

/-- The amount extraction of `SharkManager.parse_offer_from_response`:
`re.search(r'\$?([\d,]+)\s*(?:thousand|k)?', response)` on the raw
response, group 1 with commas removed fed to `int(...)`, then the
`*1000` multiplier when `'thousand' in response_lower` or a `k` occurs
in the five lowercase characters after the match end.  The optional
`\$?` neither moves the leftmost match of `[\d,]+` nor enters group 1,
so it is not represented; `\s*(?:thousand|k)?` only moves the match
end, reproduced by skipping whitespace and the optional literal. -/
def parseAmount (chars : List Char) : Option Nat :=
  match splitFirstRun (fun c => c.isDigit || c = ',') chars with
  | none => none
  | some (run, afterRun) =>
    match parseNatDigits (run.filter (fun c => c ≠ ',')) with
    | none => none
    | some n =>
      let lower := chars.map Char.toLower
      let afterWs := afterRun.dropWhile (fun c => c.isWhitespace)
      let afterMatch :=
        if ("thousand".data).isPrefixOf afterWs then afterWs.drop 8
        else if ['k'].isPrefixOf afterWs then afterWs.drop 1
        else afterWs
      let window := (afterMatch.map Char.toLower).take 5
      if listInfix ("thousand".data) lower || window.contains 'k' then some (n * 1000)
      else some n

/-- Dropping a prefix cannot lengthen a list (termination helper for
the regex scanners). -/
theorem dropWhile_length_le (p : Char → Bool) (l : List Char) :
    (l.dropWhile p).length ≤ l.length := by
  induction l with
  | nil => simp [List.dropWhile]
  | cons c t ih =>
    by_cases h : p c
    · simpa [List.dropWhile, h] using Nat.le_succ_of_le ih
    · simp [List.dropWhile, h]

/-- The equity extraction: `re.search(r'(\d+)\s*(?:%|percent)', lower)`.
A shortened (backtracked) digit run would leave the next character a
digit, which can start neither `%` nor `percent`, so the leftmost
match is the first maximal digit run whose end, after whitespace, is
followed by `%` or `percent`; group 1 is that whole run.  Structurally
recursive on a fuel that starts at the list length (each step consumes
at least one character, see `dropWhile_length_le`). -/
def scanEquityAux : Nat → List Char → Option Nat
  | 0, _ => none
  | _, [] => none
  | fuel + 1, c :: cs =>
    if c.isDigit then
      let run := (c :: cs).takeWhile Char.isDigit
      let rest := cs.dropWhile Char.isDigit
      let restWs := rest.dropWhile (fun x => x.isWhitespace)
      if (['%']).isPrefixOf restWs || ("percent".data).isPrefixOf restWs then
        some (natOfDigits run)
      else scanEquityAux fuel rest
    else scanEquityAux fuel cs

/-- `scanEquityAux` with enough fuel for the whole input. -/
def scanEquity (l : List Char) : Option Nat := scanEquityAux l.length l

/-- The royalty extraction:
`re.search(r'\$?([\d.]+)\s*(?:per unit|royalty)', lower)`, by the same
no-backtracking argument as `scanEquity`; returns group 1. -/
def scanRoyaltyAux : Nat → List Char → Option (List Char)
  | 0, _ => none
  | _, [] => none
  | fuel + 1, c :: cs =>
    if c.isDigit || c = '.' then
      let run := (c :: cs).takeWhile (fun x => x.isDigit || x = '.')
      let rest := cs.dropWhile (fun x => x.isDigit || x = '.')
      let restWs := rest.dropWhile (fun x => x.isWhitespace)
      if ("per unit".data).isPrefixOf restWs || ("royalty".data).isPrefixOf restWs then
        some run
      else scanRoyaltyAux fuel rest
    else scanRoyaltyAux fuel cs

/-- `scanRoyaltyAux` with enough fuel for the whole input. -/
def scanRoyalty (l : List Char) : Option (List Char) := scanRoyaltyAux l.length l

/-- Python `x or y` for the optional extracted numbers (`None` and `0`
both fall back to the default). -/
def pyOrQ (o : Option Nat) (dflt : ℚ) : ℚ :=
  match o with
  | some n => if n = 0 then dflt else (n : ℚ)
  | none => dflt

/-- Python truthiness of an optional int (`None` and `0` are falsy). -/
def pyTruthy (o : Option Nat) : Bool :=
  match o with
  | some n => n ≠ 0
  | none => false

/-- `SharkManager.parse_offer_from_response` from `sharks.py`.  Returns
the offer draft dictionary (before `add_offer` assigns `id`/`status`),
or `none`. -/
def parse_offer_from_response (shark_id : String) (response : String) (p : PitchData) :
    Option Offer :=
  let lower := response.data.map Char.toLower
  let indicators := ["offer", "i\x27ll give you", "deal:", "here\x27s what i\x27ll do",
    "i\x27m in for", "investment of"]
  if ! indicators.any (fun ind => listInfix ind.data lower) then none
  else
    let amount := parseAmount response.data
    let equity := scanEquity lower
    let royaltyRun :=
      if shark_id = "victor" || listInfix ("royalty".data) lower then scanRoyalty lower
      else none
    let royalty := royaltyRun.bind pyFloatQ
    let royaltyUntil := if royalty.isSome then some (p.amountRaising.getD 100000) else none
    if pyTruthy amount || pyTruthy equity then
      some { id := "", sharkId := shark_id,
             amount := pyOrQ amount (p.amountRaising.getD 100000),
             equity := pyOrQ equity ((p.equityPercent.getD 10) + 5),
             royalty := royalty, royaltyUntil := royaltyUntil,
             conditions := [], status := "" }
    else none

/-- One Q&A transcript entry (`qaTranscript` in `session.py`);
timestamps dropped. -/
structure QAMsg where
  speaker : String
  speakerId : String
  text : String
  isShark : Bool
deriving Repr, DecidableEq

/-- One shark's state dictionary.  Only the fields any modelled code
path reads or writes after creation are kept (`status`, `confidence`);
`Option` captures partially-initialised dictionaries, with the
source's `get` defaults applied at each read site. -/
structure SharkState where
  status : Option String
  confidence : Option Int
deriving Repr, DecidableEq

/-- A session record (`session.py` `create_session`), with the shark
dictionary as a total function (missing id ↦ `⟨none, none⟩`, matching
`session['sharks'].get(shark_id, {})`).  `userId`, `twitterHandle`,
timestamps and the unused `counterOffers`/`pitchDuration` fields are
dropped: no modelled operation or claim reads them. -/
structure Session where
  phase : String
  pitchData : PitchData
  transcript : List String
  qaTranscript : List QAMsg
  sharks : String → SharkState
  offers : List Offer
  finalDeal : Option Offer

/-- `update_shark_state`: update-or-insert of one shark dictionary. -/
def updateShark (s : Session) (shark_id : String) (f : SharkState → SharkState) : Session :=
  { s with sharks := fun j => if j = shark_id then f (s.sharks j) else s.sharks j }

/-- `update_shark_state(session_id, shark_id, {'confidence': c})`. -/
def set_shark_confidence (s : Session) (shark_id : String) (c : Int) : Session :=
  updateShark s shark_id (fun st => { st with confidence := some c })

/-- `update_shark_state(session_id, shark_id, {'status': v})`. -/
def set_shark_status (s : Session) (shark_id : String) (v : String) : Session :=
  updateShark s shark_id (fun st => { st with status := some v })

/-- `get_shark_state(...).get('confidence', 50)`. -/
def sharkConfidence (s : Session) (shark_id : String) : Int :=
  ((s.sharks shark_id).confidence).getD 50

/-- `get_shark_state(...).get('status')`. -/
def sharkStatus (s : Session) (shark_id : String) : Option String :=
  (s.sharks shark_id).status

/-- `SessionManager.set_phase`. -/
def set_phase (s : Session) (phase : String) : Session := { s with phase := phase }

/-- `SessionManager.set_final_deal`: stores the deal and forces the
phase to `closed`. -/
def set_final_deal (s : Session) (deal : Offer) : Session :=
  { s with finalDeal := some deal, phase := "closed" }

/-- `SessionManager.add_qa_message` (timestamp dropped). -/
def add_qa_message (s : Session) (m : QAMsg) : Session :=
  { s with qaTranscript := s.qaTranscript ++ [m] }

/-- `SessionManager.get_offer`: first offer with the given id. -/
def get_offer (s : Session) (offer_id : String) : Option Offer :=
  s.offers.find? (fun o => o.id = offer_id)

/-- `SessionManager.update_offer_status`: sets the status of the first
offer with the given id (the source breaks out of its loop after the
first hit). -/
def update_offer_status : List Offer → String → String → List Offer
  | [], _, _ => []
  | o :: rest, offer_id, status =>
    if o.id = offer_id then { o with status := status } :: rest
    else o :: update_offer_status rest offer_id status

/-- `SessionManager.add_offer`: assigns the fresh id (a uuid in the
source, supplied here), stamps status `pending`, appends, and returns
the stored offer (the source mutates and appends the same dict). -/
def add_offer (s : Session) (draft : Offer) (newId : String) : Session × Offer :=
  let o := { draft with id := newId, status := "pending" }
  ({ s with offers := s.offers ++ [o] }, o)

/-- `start_session` from `app.py`: a fresh session in phase `pitch`
whose sharks are all `live` with their initial confidences. -/
def start_session (p : PitchData) : Session :=
  let base : Session :=
    { phase := "pitch", pitchData := p, transcript := [], qaTranscript := [],
      sharks := fun _ => ⟨none, none⟩, offers := [], finalDeal := none }
  SHARK_IDS.foldl
    (fun s shark_id => updateShark s shark_id
      (fun _ => ⟨some "live", some (calculate_initial_confidence shark_id p)⟩))
    base

/-- One server-sent event, projected to `(type, sharkId, text, offer)`;
timestamps, display names and TTS audio are dropped.  For
`shark_message` events the `offer` component is the parsed draft the
source places in the payload (the source later mutates the same dict
in `add_offer`; the projection keeps the value at publish time). -/
structure Event where
  type : String
  sharkId : String
  text : String
  offer : Option Offer
deriving Repr, DecidableEq

/-- Randomness and collaborator outputs consumed by one background
reaction (`generate_initial_reactions` /
`generate_shark_responses_to_user`): the `random.choice` index over
response candidates, the `random.random()` draw inside
`should_go_out`, the choice index for an out reason, the AI reply
(`none` = unavailable/error, which the source replaces by a fallback),
the fallback choice index, and the uuid for a parsed offer. -/
structure ReactParams where
  pick : Nat
  goOutRand : ℚ
  outReasonIdx : Nat
  gen : Option String
  fbIdx : Nat
  newOfferId : String
deriving Repr, DecidableEq

/-- Collaborator outputs consumed by an offer-response action: the out
reason choice index, the AI reply, and the uuid for a parsed
counter-offer. -/
structure GenParams where
  outReasonIdx : Nat
  gen : Option String
  newOfferId : String
deriving Repr, DecidableEq

/-- The shared tail of both background reaction generators in `app.py`
(lines 339-396 and 522-578): given the generated response, detect
"i'm out", try to parse an offer, publish speaking/message/out/offer
events, store the Q&A message.  Returns the new session and the list
of `send_sse_event` calls in source order.  An empty response string
is falsy and publishes nothing (the thinking indicator was already
sent by the caller). -/
def process_shark_response (s : Session) (shark_id response newOfferId : String) :
    Session × List Event :=
  if response = "" then (s, [])
  else
    let lower := response.data.map Char.toLower
    let is_going_out := listInfix ("i\x27m out".data) lower || listInfix ("im out".data) lower
    let draft := if is_going_out then none
      else parse_offer_from_response shark_id response s.pitchData
    let s1 := if is_going_out then set_shark_status s shark_id "out" else s
    let evOut : List Event :=
      if is_going_out then [⟨"shark_out", shark_id, response, none⟩] else []
    let s2 := match draft with
      | some d => (add_offer s1 d newOfferId).1
      | none => s1
    let evOffer : List Event := match draft with
      | some d => [⟨"shark_offer", shark_id, "", some (add_offer s1 d newOfferId).2⟩]
      | none => []
    let s3 := add_qa_message s2 ⟨get_shark_name shark_id, shark_id, response, true⟩
    (s3, [⟨"shark_speaking", shark_id, "", none⟩, ⟨"shark_message", shark_id, response, draft⟩]
      ++ evOut ++ evOffer ++ [⟨"shark_speaking", shark_id, "", none⟩])

/-- The "speaking order" selection of `generate_initial_reactions`:
build `(shark, confidence)` pairs for non-out sharks in `SHARK_IDS`
order, stable-sort by confidence descending, keep the head — i.e. the
first shark attaining the maximum confidence. -/
def topShark (l : List (String × Int)) : Option (String × Int) :=
  l.foldl
    (fun acc p => match acc with
      | none => some p
      | some q => if p.2 > q.2 then some p else some q)
    none

/-- `generate_initial_reactions` from `app.py` (the background task
spawned by `pitch_complete`): exactly one non-out shark reacts, after
a `should_go_out` check with the empty context. -/
def generate_initial_reactions (s : Session) (r : ReactParams) : Session × List Event :=
  let states := SHARK_IDS.filterMap
    (fun shark_id => if sharkStatus s shark_id = some "out" then none
      else some (shark_id, sharkConfidence s shark_id))
  match topShark states with
  | none => (s, [])
  | some (shark_id, confidence) =>
    let evT : Event := ⟨"shark_thinking", shark_id, "", none⟩
    if should_go_out shark_id confidence "qa" emptyCtx r.goOutRand then
      let reason := get_out_reason shark_id r.outReasonIdx
      (set_shark_status s shark_id "out", [evT, ⟨"shark_out", shark_id, reason, none⟩])
    else
      let response := r.gen.getD (get_fallback_response shark_id r.fbIdx)
      let pr := process_shark_response s shark_id response r.newOfferId
      (pr.1, evT :: pr.2)

/-- The last shark speaker in the Q&A transcript (`for msg in
reversed(context)`). -/
def lastSharkSpeaker (ctx : List QAMsg) : Option String :=
  (ctx.reverse.find? (fun m => m.isShark)).map (fun m => m.speakerId)

/-- `generate_shark_responses_to_user` from `app.py` (the background
task spawned by `user_message`): one non-out shark, preferably not the
last speaker, chosen by `random.choice` (index `r.pick` modulo the
candidate count), responds. -/
def generate_shark_responses_to_user (s : Session) (r : ReactParams) : Session × List Event :=
  let responding := SHARK_IDS.filterMap
    (fun shark_id => if sharkStatus s shark_id = some "out" then none
      else some (shark_id, sharkConfidence s shark_id))
  if responding.isEmpty then (s, [])
  else
    let last := lastSharkSpeaker s.qaTranscript
    let candidates := responding.filter (fun p => some p.1 ≠ last)
    let candidates := if candidates.isEmpty then responding else candidates
    let chosen := candidates.getD (r.pick % candidates.length) ("", 0)
    let evT : Event := ⟨"shark_thinking", chosen.1, "", none⟩
    let response := r.gen.getD (get_fallback_response chosen.1 r.fbIdx)
    let pr := process_shark_response s chosen.1 response r.newOfferId
    (pr.1, evT :: pr.2)

/-- The `user_message` endpoint of `app.py` composed sequentially with
its background task.  An empty text is rejected with a 400 and changes
nothing. -/
def user_message (s : Session) (text : String) (r : ReactParams) : Session × List Event :=
  if text = "" then (s, [])
  else
    let s1 := add_qa_message s ⟨"You", "user", text, false⟩
    generate_shark_responses_to_user s1 r

/-- The `pitch_complete` endpoint of `app.py` composed sequentially
with its background task: stores the transcript, sets phase `qa`
unconditionally, refreshes every shark's confidence from the
transcript, then runs the initial reaction. -/
def pitch_complete (s : Session) (transcript : List String) (r : ReactParams) :
    Session × List Event :=
  let s1 := { s with transcript := transcript, phase := "qa" }
  let s2 := SHARK_IDS.foldl
    (fun acc shark_id => set_shark_confidence acc shark_id
      (update_confidence_from_transcript shark_id transcript (sharkConfidence acc shark_id)))
    s1
  generate_initial_reactions s2 r

/-- `handle_offer_decline` from `app.py`: drop the shark's confidence
by 15 (floor 0); below 30 the shark goes out with a `shark_out` event,
otherwise a decline response (AI reply or per-shark fallback) is
published as `shark_message` when non-empty. -/
def handle_offer_decline (s : Session) (shark_id : String) (g : GenParams) :
    Session × List Event :=
  let confidence := sharkConfidence s shark_id
  let new_confidence := max 0 (confidence - 15)
  let s1 := set_shark_confidence s shark_id new_confidence
  if new_confidence < 30 then
    let reason := get_out_reason shark_id g.outReasonIdx
    (set_shark_status s1 shark_id "out", [⟨"shark_out", shark_id, reason, none⟩])
  else
    let response := g.gen.getD (get_decline_fallback shark_id)
    if response = "" then (s1, [])
    else (s1, [⟨"shark_message", shark_id, response, none⟩])

/-- `handle_counter_offer` from `app.py`: evaluate the counter via
`generate_counter_response`; on accept, build the final offer from the
original with countered amount/equity and status `accepted`, store it
as final deal (closing the session) and publish `deal_closed`;
otherwise publish the reply and any freshly parsed new offer. -/
def handle_counter_offer (s : Session) (shark_id : String) (original_offer : Offer)
    (amountT equityT : Option ℚ) (g : GenParams) : Session × List Event :=
  let evT : Event := ⟨"shark_thinking", shark_id, "", none⟩
  let rr := generate_counter_response shark_id g.gen
  let response := rr.1
  let accepts := rr.2
  let evSpk : Event := ⟨"shark_speaking", shark_id, "", none⟩
  let evEnd : Event := ⟨"shark_speaking", shark_id, "", none⟩
  if accepts then
    let final_offer := { original_offer with
      amount := amountT.getD original_offer.amount,
      equity := equityT.getD original_offer.equity,
      status := "accepted" }
    (set_final_deal s final_offer,
     [evT, evSpk, ⟨"shark_message", shark_id, response, none⟩,
      ⟨"deal_closed", shark_id, "", some final_offer⟩, evEnd])
  else
    match parse_offer_from_response shark_id response s.pitchData with
    | some d =>
      let so := add_offer s d g.newOfferId
      (so.1, [evT, evSpk, ⟨"shark_message", shark_id, response, none⟩,
              ⟨"shark_offer", shark_id, "", some so.2⟩, evEnd])
    | none => (s, [evT, evSpk, ⟨"shark_message", shark_id, response, none⟩, evEnd])

/-- The user's counter terms dictionary; `none` on a component means
the key is absent (`counter_terms.get(...)` then falls back to the
original offer's value).  An entirely absent or empty (falsy)
dictionary is modelled as `none` at the call site. -/
structure CounterTerms where
  amount : Option ℚ
  equity : Option ℚ
deriving Repr, DecidableEq

/-- The JSON result of the `offer_response` endpoint. -/
inductive OfferResult where
  | dealClosed (offer : Offer)
  | declined
  | counterSubmitted
  | invalidAction
deriving Repr, DecidableEq

/-- The `offer_response` endpoint of `app.py` (accept / decline /
counter on an existing session), composed sequentially with the
background handler it spawns.  Any fall-through — unknown action,
missing offer id, or counter without (truthy) counter terms — returns
the 400 `Invalid action` response. -/
def offer_response (s : Session) (offer_id action : String) (counter_terms : Option CounterTerms)
    (g : GenParams) : Session × List Event × OfferResult :=
  if action = "accept" then
    match get_offer s offer_id with
    | some offer =>
      let s1 := set_final_deal (set_phase s "closed") offer
      (s1, [⟨"deal_closed", offer.sharkId, "", some offer⟩], .dealClosed offer)
    | none => (s, [], .invalidAction)
  else if action = "decline" then
    match get_offer s offer_id with
    | some offer =>
      let s1 := { s with offers := update_offer_status s.offers offer_id "declined" }
      let hd := handle_offer_decline s1 offer.sharkId g
      (hd.1, hd.2, .declined)
    | none => (s, [], .invalidAction)
  else if action = "counter" then
    match get_offer s offer_id, counter_terms with
    | some offer, some ct =>
      let s1 := { s with offers := update_offer_status s.offers offer_id "countered" }
      let hc := handle_counter_offer s1 offer.sharkId { offer with status := "countered" }
        ct.amount ct.equity g
      (hc.1, hc.2, .counterSubmitted)
    | _, _ => (s, [], .invalidAction)
  else (s, [], .invalidAction)

/-- One session's slice of the event broadcaster state in `app.py`:
the `recent_messages[session_id]` dedup-key set and the session queue.
`recent` records the keys in insertion order; Python's `set` holds the
same keys but enumerates them in an unspecified (hash-randomised)
order, so every operation that enumerates the set (`list(recent)`)
takes the enumeration as an explicit function argument, quantified
over permutations in the theorems. -/
structure Broadcaster where
  recent : List String
  queue : List Event
deriving Repr, DecidableEq

/-- The dedup key of `send_sse_event`:
`f"{session_id}-{sharkId}-{text[:50]}"`. -/
def dedupKey (session_id : String) (ev : Event) : String :=
  session_id ++ "-" ++ ev.sharkId ++ "-" ++ takeStr 50 ev.text

/-- `send_sse_event` from `app.py`: `shark_message` events whose dedup
key was already seen are silently dropped; after adding a new key, a
set grown beyond 50 entries is replaced by the last 25 entries of its
enumeration (`set(list(recent)[-25:])`, with `enum` standing for the
unspecified set enumeration order).  Every other event type is
enqueued unconditionally. -/
def send_sse_event (enum : List String → List String) (session_id : String)
    (b : Broadcaster) (ev : Event) : Broadcaster :=
  if ev.type = "shark_message" then
    let key := dedupKey session_id ev
    if key ∈ b.recent then b
    else
      let r1 := b.recent ++ [key]
      let r2 := if r1.length > 50 then (enum r1).drop ((enum r1).length - 25) else r1
      { recent := r2, queue := b.queue ++ [ev] }
  else { b with queue := b.queue ++ [ev] }

/-- Publishing a list of events through `send_sse_event` in order. -/
def publishAll (enum : List String → List String) (session_id : String)
    (b : Broadcaster) (evs : List Event) : Broadcaster :=
  evs.foldl (send_sse_event enum session_id) b

/-- A minimal pitch-data dictionary: every key missing, so every
`get` default fires. -/
def pMin : PitchData := ⟨none, none, none, none, none, none⟩

/-- A session freshly created from the minimal pitch. -/
def sessStart : Session := start_session pMin

/-- Reaction parameters whose AI reply is a spoken offer of $100,000
for 20% equity. -/
def rOffer : ReactParams :=
  ⟨0, 0, 0, some "I\x27ll give you $100,000 for 20% equity", 0, "of1"⟩

/-- Reaction parameters whose AI reply is a neutral remark. -/
def rIdle : ReactParams := ⟨0, 0, 0, some "Interesting.", 0, "ofY"⟩

/-- The session after the first user message, in which Marcus (the
responding shark) spoke an offer that was parsed and stored with id
`of1`. -/
def sessOffer : Session := (user_message sessStart "hello" rOffer).1

/-- The stored offer `of1` as it sits in `sessOffer`. -/
def oMarcus : Offer :=
  { id := "of1", sharkId := "marcus", amount := 100000, equity := 20,
    royalty := none, royaltyUntil := none, conditions := [], status := "pending" }

/-- Generation parameters for actions that never reach the AI. -/
def gNoAI : GenParams := ⟨0, none, "ofX"⟩

/-- Generation parameters whose AI reply rejects a counter offer. -/
def gNoDeal : GenParams := ⟨0, some "No deal.", "ofZ"⟩

/-- The session after the offer `of1` was accepted (phase closed). -/
def sessClosed : Session := (offer_response sessOffer "of1" "accept" none gNoAI).1

/-- The session after the offer `of1` was declined instead: Marcus
drops from confidence 35 to 20 and goes out. -/
def sessDeclined : Session := (offer_response sessOffer "of1" "decline" none gNoAI).1

/-- Ranks of the session phases along the intended
`pitch → qa → closed` progression (any unknown string ranks lowest). -/
def phaseRank (p : String) : Nat := if p = "closed" then 2 else if p = "qa" then 1 else 0

theorem phaseRank_le_two (p : String) : phaseRank p ≤ 2 := by
  unfold phaseRank
  split_ifs <;> omega

theorem phase_updateShark (s : Session) (i : String) (f : SharkState → SharkState) :
    (updateShark s i f).phase = s.phase := rfl

theorem phase_add_qa_message (s : Session) (m : QAMsg) :
    (add_qa_message s m).phase = s.phase := rfl

theorem phase_add_offer (s : Session) (d : Offer) (nid : String) :
    (add_offer s d nid).1.phase = s.phase := rfl

theorem phase_set_final_deal (s : Session) (d : Offer) :
    (set_final_deal s d).phase = "closed" := rfl

theorem phase_process_shark_response (s : Session) (i resp nid : String) :
    (process_shark_response s i resp nid).1.phase = s.phase := by
  unfold process_shark_response
  split
  · rfl
  · dsimp only
    split <;> split <;> rfl

theorem phase_generate_initial_reactions (s : Session) (r : ReactParams) :
    (generate_initial_reactions s r).1.phase = s.phase := by
  simp only [generate_initial_reactions]
  split
  · rfl
  · split
    · rfl
    · exact phase_process_shark_response _ _ _ _

theorem phase_generate_responses_to_user (s : Session) (r : ReactParams) :
    (generate_shark_responses_to_user s r).1.phase = s.phase := by
  simp only [generate_shark_responses_to_user]
  split
  · rfl
  · exact phase_process_shark_response _ _ _ _

theorem phase_user_message (s : Session) (text : String) (r : ReactParams) :
    (user_message s text r).1.phase = s.phase := by
  unfold user_message
  split
  · rfl
  · exact phase_generate_responses_to_user _ _

theorem foldl_phase_eq {α : Type} (g : Session → α → Session)
    (hg : ∀ s a, (g s a).phase = s.phase) (l : List α) (s : Session) :
    (l.foldl g s).phase = s.phase := by
  induction l generalizing s with
  | nil => rfl
  | cons a t ih => rw [List.foldl_cons, ih, hg]

theorem phase_handle_offer_decline (s : Session) (i : String) (g : GenParams) :
    (handle_offer_decline s i g).1.phase = s.phase := by
  simp only [handle_offer_decline]
  split
  · rfl
  · split <;> rfl

theorem sharkConfidence_set_self (s : Session) (i : String) (c : Int) :
    sharkConfidence (set_shark_confidence s i c) i = c := by
  simp [sharkConfidence, set_shark_confidence, updateShark]

theorem sharkStatus_set_confidence (s : Session) (i : String) (c : Int) (j : String) :
    sharkStatus (set_shark_confidence s i c) j = sharkStatus s j := by
  unfold sharkStatus set_shark_confidence updateShark
  by_cases hj : j = i <;> simp [hj]

theorem sharkStatus_set_status_self (s : Session) (i v : String) :
    sharkStatus (set_shark_status s i v) i = some v := by
  simp [sharkStatus, set_shark_status, updateShark]

theorem sharkConfidence_set_status (s : Session) (i v j : String) :
    sharkConfidence (set_shark_status s i v) j = sharkConfidence s j := by
  unfold sharkConfidence set_shark_status updateShark
  by_cases hj : j = i <;> simp [hj]

theorem sharkStatus_out_preserved_set_status_out (s : Session) (i j : String)
    (h : sharkStatus s j = some "out") :
    sharkStatus (set_shark_status s i "out") j = some "out" := by
  unfold sharkStatus set_shark_status updateShark at *
  by_cases hj : j = i <;> simp [hj, h]

theorem sharkStatus_add_qa_message (s : Session) (m : QAMsg) (j : String) :
    sharkStatus (add_qa_message s m) j = sharkStatus s j := rfl

theorem sharkStatus_add_offer (s : Session) (d : Offer) (nid j : String) :
    sharkStatus (add_offer s d nid).1 j = sharkStatus s j := rfl

theorem sharkStatus_out_process_shark_response (s : Session) (i resp nid j : String)
    (h : sharkStatus s j = some "out") :
    sharkStatus (process_shark_response s i resp nid).1 j = some "out" := by
  unfold process_shark_response
  split
  · exact h
  · dsimp only
    split <;> split <;>
      simp only [sharkStatus_add_qa_message, sharkStatus_add_offer] <;>
      first
        | exact sharkStatus_out_preserved_set_status_out _ _ _ h
        | exact h

/-- C4: whenever the response-generation collaborator is unavailable
or raises (`gen = none`, the two source paths that share the fallback
return), `generate_counter_response` returns the deterministic
persona-keyed fallback line `get_counter_fallback shark_id` paired
with `accepts = false` — a counter offer is never accepted as a
consequence of a generation failure. -/
theorem C4_generation_failure_rejects_counter (shark_id : String) :
    generate_counter_response shark_id none = (get_counter_fallback shark_id, false) := rfl

/-- C5 counterexample: the transcript-based confidence update does not
always land in `[0,100]` — with an empty transcript the source returns
the current confidence unchanged and unclamped, so the out-of-range
input 150 is returned as 150. -/
theorem C5_counterexample :
    update_confidence_from_transcript "marcus" [] 150 = 150 ∧
      ¬ update_confidence_from_transcript "marcus" [] 150 ≤ 100 := by
  decide

/-- C5 (amended): the initial-confidence computation is always in
`[0,100]`; the transcript-based update is in `[0,100]` whenever the
current confidence already is (for a non-empty transcript the result
is clamped regardless; for an empty transcript the input is returned
unchanged). -/
theorem C5_confidence_clamped :
    (∀ shark_id p, 0 ≤ calculate_initial_confidence shark_id p ∧
        calculate_initial_confidence shark_id p ≤ 100)
  ∧ (∀ shark_id transcript c, 0 ≤ c → c ≤ 100 →
        0 ≤ update_confidence_from_transcript shark_id transcript c ∧
        update_confidence_from_transcript shark_id transcript c ≤ 100) := by
  constructor
  · intro shark_id p
    exact ⟨le_max_left 0 _, max_le (by norm_num) (min_le_left _ _)⟩
  · intro shark_id transcript c h0 h1
    cases transcript with
    | nil => exact ⟨h0, h1⟩
    | cons a t => exact ⟨le_max_left 0 _, max_le (by norm_num) (min_le_left _ _)⟩

/-- C5 witness: the update theorem applied at a concrete in-range
input. -/
theorem C5_witness :
    0 ≤ update_confidence_from_transcript "victor" ["we have no revenue yet"] 50 ∧
      update_confidence_from_transcript "victor" ["we have no revenue yet"] 50 ≤ 100 :=
  C5_confidence_clamped.2 "victor" ["we have no revenue yet"] 50 (by decide) (by decide)

/-- C7 counterexample: the claim's clause "returns true whenever
`questionCount ≥ 2` and `confidence < 15`" fails during the pitch
phase: the source returns `False` for any pitch-phase call, including
`questionCount = 5`, `confidence = 10`. -/
theorem C7_counterexample :
    (2 : Int) ≤ 5 ∧ (10 : Int) < 15 ∧
      should_go_out "marcus" 10 "pitch" ⟨5, false, false⟩ 0 = false := by
  decide

/-- C7 (amended): `should_go_out` is false in the pitch phase and
below two questions regardless of confidence; outside the pitch phase
it is true whenever `questionCount ≥ 2 ∧ confidence < 15` and whenever
`questionCount ≥ 4 ∧ confidence < 30`, independent of the random
draw. -/
theorem C7_should_go_out_gates :
    (∀ shark_id conf ctx rand,
        should_go_out shark_id conf "pitch" ctx rand = false)
  ∧ (∀ shark_id conf phase ctx rand, ctx.questionCount < 2 →
        should_go_out shark_id conf phase ctx rand = false)
  ∧ (∀ shark_id conf phase ctx rand,
        phase ≠ "pitch" → 2 ≤ ctx.questionCount → conf < 15 →
        should_go_out shark_id conf phase ctx rand = true)
  ∧ (∀ shark_id conf phase ctx rand,
        phase ≠ "pitch" → 4 ≤ ctx.questionCount → conf < 30 →
        should_go_out shark_id conf phase ctx rand = true) := by
  refine ⟨?_, ?_, ?_, ?_⟩
  · intro shark_id conf ctx rand
    unfold should_go_out
    rw [if_pos rfl]
  · intro shark_id conf phase ctx rand h
    unfold should_go_out
    by_cases hp : phase = "pitch"
    · rw [if_pos hp]
    · rw [if_neg hp, if_pos h]
  · intro shark_id conf phase ctx rand hp h2 h15
    unfold should_go_out
    rw [if_neg hp, if_neg (by omega), if_pos ⟨h15, h2⟩]
  · intro shark_id conf phase ctx rand hp h4 h30
    unfold should_go_out
    rw [if_neg hp, if_neg (by omega)]
    by_cases h15 : conf < 15 ∧ ctx.questionCount ≥ 2
    · rw [if_pos h15]
    · rw [if_neg h15, if_pos ⟨h4, h30⟩]

/-- C7 witness: a judge with confidence 10 after 3 questions in the
Q&A phase goes out. -/
theorem C7_witness :
    should_go_out "elena" 10 "qa" ⟨3, false, false⟩ (Rat.divInt 1 2) = true :=
  C7_should_go_out_gates.2.2.1 "elena" 10 "qa" ⟨3, false, false⟩ (Rat.divInt 1 2)
    (by decide) (by decide) (by decide)

/-- C8: the counter-offer acceptance classifier of
`generate_counter_response` returns `accepts = false` for any reply
containing `no deal`, returns `accepts = true` for any reply
containing one of the `ACCEPT_PHRASES` but not `no deal`, and on the
two concrete scenario texts classifies "I'll accept that, deal!" as
accepted and "No deal, that's too low" as not accepted. -/
theorem C8_counter_acceptance_classifier :
    (∀ shark_id t, containsStr (lowerStr t) "no deal" = true →
        (generate_counter_response shark_id (some t)).2 = false)
  ∧ (∀ shark_id t p, p ∈ ACCEPT_PHRASES → containsStr (lowerStr t) p = true →
        containsStr (lowerStr t) "no deal" = false →
        (generate_counter_response shark_id (some t)).2 = true)
  ∧ (generate_counter_response "marcus" (some "I\x27ll accept that, deal!")).2 = true
  ∧ (generate_counter_response "marcus" (some "No deal, that\x27s too low")).2 = false := by
  refine ⟨?_, ?_, by decide, by decide⟩
  · intro shark_id t h
    unfold generate_counter_response
    simp [h]
  · intro shark_id t p hp hc hnd
    unfold generate_counter_response
    simp only [hnd, if_false, Bool.false_eq_true]
    exact List.any_eq_true.mpr ⟨p, hp, hc⟩

/-- C8 witness: the acceptance rule applied to a concrete reply
containing the phrase `agreed`. -/
theorem C8_witness :
    (generate_counter_response "elena" (some "Agreed, partner.")).2 = true :=
  C8_counter_acceptance_classifier.2.1 "elena" "Agreed, partner." "agreed"
    (by decide) (by decide) (by decide)

/-- A Q&A-phase session holding the pending offer `of1` with its
offering judge Marcus at confidence 40 (the C6 scenario). -/
def sess40 : Session :=
  { phase := "qa", pitchData := pMin, transcript := [], qaTranscript := [],
    sharks := fun j => if j = "marcus" then ⟨some "live", some 40⟩ else ⟨some "live", some 50⟩,
    offers := [oMarcus], finalDeal := none }

/-- The offer found by `get_offer` keeps its place (with updated
status) after `update_offer_status` on the same id. -/
theorem get_offer_after_update_status (l : List Offer) (oid st : String) (offer : Offer)
    (h : l.find? (fun o => o.id = oid) = some offer) :
    (update_offer_status l oid st).find? (fun o => o.id = oid)
      = some { offer with status := st } := by
  induction l with
  | nil => simp [List.find?] at h
  | cons o rest ih =>
    by_cases ho : o.id = oid
    · rw [List.find?_cons_of_pos _ (by simp [ho])] at h
      injection h with h
      subst h
      unfold update_offer_status
      rw [if_pos ho]
      exact List.find?_cons_of_pos _ (by simp [ho])
    · rw [List.find?_cons_of_neg _ (by simp [ho])] at h
      unfold update_offer_status
      rw [if_neg ho, List.find?_cons_of_neg _ (by simp [ho])]
      exact ih h

/-- C1 counterexample: accepting the same offer twice.  The second
call is NOT rejected with an already-closed error: it again returns
the `deal_closed` result (`sessClosed` is the session right after the
first accept).  The source's accept branch checks neither
`offer.status == 'pending'` nor whether the session is closed. -/
theorem C1_counterexample :
    (offer_response sessOffer "of1" "accept" none gNoAI).2.2 = .dealClosed oMarcus
  ∧ (offer_response sessClosed "of1" "accept" none gNoAI).2.2 = .dealClosed oMarcus
  ∧ (offer_response sessClosed "of1" "accept" none gNoAI).2.2 ≠ .invalidAction
  ∧ (offer_response sessClosed "of1" "accept" none gNoAI).1.finalDeal = some oMarcus := by
  decide

/-- C1 (amended): accept succeeds whenever the offer id is present,
regardless of the offer's status or of the session already being
closed: it sets `finalDeal` to the offer, forces phase `closed`, and
publishes `deal_closed`.  Calling accept twice therefore succeeds both
times — the second call repeats the `deal_closed` result and leaves
`finalDeal` the same offer (no already-closed rejection exists in the
code). -/
theorem C1_accept_lacks_closed_guard (s : Session) (offer_id : String) (offer : Offer)
    (g g2 : GenParams) (h : get_offer s offer_id = some offer) :
    offer_response s offer_id "accept" none g
      = (set_final_deal (set_phase s "closed") offer,
         ([⟨"deal_closed", offer.sharkId, "", some offer⟩], .dealClosed offer))
  ∧ offer_response (offer_response s offer_id "accept" none g).1 offer_id "accept" none g2
      = (set_final_deal (set_phase (offer_response s offer_id "accept" none g).1 "closed") offer,
         ([⟨"deal_closed", offer.sharkId, "", some offer⟩], .dealClosed offer))
  ∧ (offer_response (offer_response s offer_id "accept" none g).1 offer_id "accept"
        none g2).1.finalDeal = some offer := by
  have step : ∀ (s' : Session) (g' : GenParams), get_offer s' offer_id = some offer →
      offer_response s' offer_id "accept" none g'
        = (set_final_deal (set_phase s' "closed") offer,
           ([⟨"deal_closed", offer.sharkId, "", some offer⟩], .dealClosed offer)) := by
    intro s' g' h'
    unfold offer_response
    rw [if_pos rfl, h']
  have h2 : get_offer (offer_response s offer_id "accept" none g).1 offer_id = some offer := by
    rw [step s g h]
    exact h
  exact ⟨step s g h, step _ g2 h2, by rw [step _ g2 h2]; rfl⟩

/-- C1 witness: the accept theorem applied to the concrete session
holding offer `of1`. -/
theorem C1_witness :
    (offer_response sessOffer "of1" "accept" none gNoAI).1.phase = "closed"
  ∧ (offer_response (offer_response sessOffer "of1" "accept" none gNoAI).1 "of1" "accept"
        none gNoAI).1.finalDeal = some oMarcus := by
  have H := C1_accept_lacks_closed_guard sessOffer "of1" oMarcus gNoAI gNoAI (by decide)
  exact ⟨by rw [H.1]; rfl, H.2.2⟩

/-- C10: every fall-through of the offer-response dispatch — an
unknown action, a missing offer id under accept/decline/counter, or a
counter without (truthy) counter terms — returns the `Invalid action`
client error and leaves the session value untouched (same phase,
offers, finalDeal, shark states), publishing nothing. -/
theorem C10_invalid_action_unchanged (s : Session) (offer_id action : String)
    (terms : Option CounterTerms) (g : GenParams)
    (h : ((action = "accept" ∨ action = "decline" ∨ action = "counter")
            ∧ get_offer s offer_id = none)
       ∨ (action = "counter" ∧ terms = none)
       ∨ (action ≠ "accept" ∧ action ≠ "decline" ∧ action ≠ "counter")) :
    offer_response s offer_id action terms g = (s, ([], .invalidAction)) := by
  unfold offer_response
  rcases h with ⟨hact, hnone⟩ | ⟨hc, ht⟩ | ⟨h1, h2, h3⟩
  · rcases hact with h1 | h1 | h1 <;> subst h1 <;> simp [hnone]
  · subst hc
    subst ht
    rw [if_neg (by decide), if_neg (by decide), if_pos rfl]
    cases hg : get_offer s offer_id <;> rfl
  · rw [if_neg h1, if_neg h2, if_neg h3]

/-- C10 witness: an unknown action on an existing session with a
stored offer. -/
theorem C10_witness :
    offer_response sessOffer "of1" "fly" none gNoAI = (sessOffer, ([], .invalidAction)) :=
  C10_invalid_action_unchanged sessOffer "of1" "fly" none gNoAI
    (Or.inr (Or.inr ⟨by decide, by decide, by decide⟩))

/-- `handle_offer_decline` written out branch-by-branch. -/
theorem handle_offer_decline_spec (s : Session) (i : String) (g : GenParams) :
    handle_offer_decline s i g
      = if max 0 (sharkConfidence s i - 15) < 30 then
          (set_shark_status (set_shark_confidence s i (max 0 (sharkConfidence s i - 15))) i
             "out",
           [⟨"shark_out", i, get_out_reason i g.outReasonIdx, none⟩])
        else if g.gen.getD (get_decline_fallback i) = "" then
          (set_shark_confidence s i (max 0 (sharkConfidence s i - 15)), [])
        else
          (set_shark_confidence s i (max 0 (sharkConfidence s i - 15)),
           [⟨"shark_message", i, g.gen.getD (get_decline_fallback i), none⟩]) := by
  simp only [handle_offer_decline]

/-- C6: declining a present offer marks it `declined`, returns the
`declined` result, lowers the offering judge's confidence by 15 with
floor 0, and then: below 30 the judge's status becomes `out` and the
only published event is `shark_out`; otherwise the status is untouched
(a live judge stays live) and the decline response (AI reply or
fallback, always non-empty in the source's tables) is published as the
only event, a `shark_message`. -/
theorem C6_decline_confidence_and_exit (s : Session) (offer_id : String) (offer : Offer)
    (g : GenParams) (h : get_offer s offer_id = some offer) :
    (offer_response s offer_id "decline" none g).2.2 = .declined
  ∧ get_offer (offer_response s offer_id "decline" none g).1 offer_id
      = some { offer with status := "declined" }
  ∧ sharkConfidence (offer_response s offer_id "decline" none g).1 offer.sharkId
      = max 0 (sharkConfidence s offer.sharkId - 15)
  ∧ (max 0 (sharkConfidence s offer.sharkId - 15) < 30 →
      sharkStatus (offer_response s offer_id "decline" none g).1 offer.sharkId = some "out"
      ∧ (offer_response s offer_id "decline" none g).2.1
          = [⟨"shark_out", offer.sharkId, get_out_reason offer.sharkId g.outReasonIdx, none⟩])
  ∧ (¬ max 0 (sharkConfidence s offer.sharkId - 15) < 30 →
      sharkStatus (offer_response s offer_id "decline" none g).1 offer.sharkId
        = sharkStatus s offer.sharkId
      ∧ (g.gen.getD (get_decline_fallback offer.sharkId) ≠ "" →
          (offer_response s offer_id "decline" none g).2.1
            = [⟨"shark_message", offer.sharkId,
                g.gen.getD (get_decline_fallback offer.sharkId), none⟩])) := by
  have hr : offer_response s offer_id "decline" none g
      = ((handle_offer_decline
            { s with offers := update_offer_status s.offers offer_id "declined" }
            offer.sharkId g).1,
         ((handle_offer_decline
            { s with offers := update_offer_status s.offers offer_id "declined" }
            offer.sharkId g).2, .declined)) := by
    unfold offer_response
    rw [if_neg (by decide), if_pos rfl, h]
  have hconf :
      sharkConfidence { s with offers := update_offer_status s.offers offer_id "declined" }
        offer.sharkId = sharkConfidence s offer.sharkId := rfl
  rw [hr, handle_offer_decline_spec]
  by_cases hlt : max 0 (sharkConfidence s offer.sharkId - 15) < 30
  · rw [if_pos (by rw [hconf]; exact hlt)]
    refine ⟨rfl, ?_, ?_, fun _ => ⟨?_, rfl⟩, fun hn => absurd hlt hn⟩
    · exact get_offer_after_update_status s.offers offer_id "declined" offer h
    · rw [sharkConfidence_set_status, sharkConfidence_set_self, hconf]
    · exact sharkStatus_set_status_self _ _ _
  · rw [if_neg (by rw [hconf]; exact hlt)]
    by_cases hresp : g.gen.getD (get_decline_fallback offer.sharkId) = ""
    · rw [if_pos hresp]
      refine ⟨rfl, ?_, ?_, fun hl => absurd hl hlt,
        fun _ => ⟨?_, fun hne => absurd hresp hne⟩⟩
      · exact get_offer_after_update_status s.offers offer_id "declined" offer h
      · rw [sharkConfidence_set_self, hconf]
      · rw [sharkStatus_set_confidence]
        rfl
    · rw [if_neg hresp]
      refine ⟨rfl, ?_, ?_, fun hl => absurd hl hlt, fun _ => ⟨?_, fun _ => rfl⟩⟩
      · exact get_offer_after_update_status s.offers offer_id "declined" offer h
      · rw [sharkConfidence_set_self, hconf]
      · rw [sharkStatus_set_confidence]
        rfl

/-- C6 witness: the scenario judge at confidence 40 — declining
`of1` drops Marcus to 25, below 30, so he goes out and only
`shark_out` is published. -/
theorem C6_witness :
    sharkConfidence (offer_response sess40 "of1" "decline" none gNoAI).1 oMarcus.sharkId = 25
  ∧ sharkStatus (offer_response sess40 "of1" "decline" none gNoAI).1 oMarcus.sharkId
      = some "out"
  ∧ (offer_response sess40 "of1" "decline" none gNoAI).2.1
      = [⟨"shark_out", oMarcus.sharkId,
          get_out_reason oMarcus.sharkId gNoAI.outReasonIdx, none⟩] := by
  have H := C6_decline_confidence_and_exit sess40 "of1" oMarcus gNoAI (by decide)
  refine ⟨by rw [H.2.2.1]; decide, (H.2.2.2.1 (by decide)).1, (H.2.2.2.1 (by decide)).2⟩

theorem phaseRank_le_handle_counter_offer (s : Session) (i : String) (o : Offer)
    (aT eT : Option ℚ) (g : GenParams) :
    phaseRank s.phase ≤ phaseRank (handle_counter_offer s i o aT eT g).1.phase := by
  simp only [handle_counter_offer]
  split
  · exact (phaseRank_le_two _).trans_eq rfl
  · split <;> exact le_rfl

/-- C2 counterexample: a closed session (an accepted deal) put through
`pitch_complete` regresses to phase `qa` — the endpoint stores the
transcript and sets phase `qa` with no guard on the current phase, so
the phase order `pitch → qa → closed` is not monotone under the full
operation set. -/
theorem C2_counterexample :
    sessClosed.phase = "closed"
  ∧ (pitch_complete sessClosed [] rIdle).1.phase = "qa"
  ∧ phaseRank (pitch_complete sessClosed [] rIdle).1.phase < phaseRank sessClosed.phase := by
  refine ⟨by decide, by decide, by decide⟩

/-- C2 (amended): the phase never moves backwards under the user
message and offer-response operations (an offer response either keeps
the phase or closes the session); but `pitch_complete` sets the phase
to `qa` unconditionally, which from a closed session is a backward
move. -/
theorem C2_phase_monotone_except_pitch_complete (s : Session) :
    (∀ text r, phaseRank s.phase ≤ phaseRank (user_message s text r).1.phase)
  ∧ (∀ offer_id action terms g,
        phaseRank s.phase ≤ phaseRank (offer_response s offer_id action terms g).1.phase)
  ∧ (∀ transcript r, (pitch_complete s transcript r).1.phase = "qa") := by
  refine ⟨?_, ?_, ?_⟩
  · intro text r
    rw [phase_user_message]
  · intro offer_id action terms g
    unfold offer_response
    by_cases ha : action = "accept"
    · rw [if_pos ha]
      cases hg : get_offer s offer_id with
      | none => exact le_rfl
      | some offer => exact (phaseRank_le_two _).trans_eq rfl
    · rw [if_neg ha]
      by_cases hd : action = "decline"
      · rw [if_pos hd]
        cases hg : get_offer s offer_id with
        | none => exact le_rfl
        | some offer =>
          rw [phase_handle_offer_decline]
      · rw [if_neg hd]
        by_cases hc : action = "counter"
        · rw [if_pos hc]
          cases hg : get_offer s offer_id with
          | none => cases terms <;> exact le_rfl
          | some offer =>
            cases terms with
            | none => exact le_rfl
            | some ct =>
              show phaseRank s.phase ≤ phaseRank (handle_counter_offer
                { s with offers := update_offer_status s.offers offer_id "countered" }
                offer.sharkId { offer with status := "countered" } ct.amount ct.equity
                g).1.phase
              exact phaseRank_le_handle_counter_offer
                { s with offers := update_offer_status s.offers offer_id "countered" }
                offer.sharkId { offer with status := "countered" } ct.amount ct.equity g
        · rw [if_neg hc]
  · intro transcript r
    simp only [pitch_complete]
    rw [phase_generate_initial_reactions,
      foldl_phase_eq (fun acc shark_id => set_shark_confidence acc shark_id
        (update_confidence_from_transcript shark_id transcript (sharkConfidence acc shark_id)))
      (fun s a => rfl)]

theorem foldl_sharkStatus_eq {α : Type} (g : Session → α → Session)
    (hg : ∀ s a (j : String), sharkStatus (g s a) j = sharkStatus s j)
    (l : List α) (s : Session) (j : String) :
    sharkStatus (l.foldl g s) j = sharkStatus s j := by
  induction l generalizing s with
  | nil => rfl
  | cons a t ih => rw [List.foldl_cons, ih, hg]

theorem sharkStatus_out_generate_initial_reactions (s : Session) (r : ReactParams)
    (j : String) (h : sharkStatus s j = some "out") :
    sharkStatus (generate_initial_reactions s r).1 j = some "out" := by
  simp only [generate_initial_reactions]
  split
  · exact h
  · split
    · exact sharkStatus_out_preserved_set_status_out _ _ _ h
    · exact sharkStatus_out_process_shark_response _ _ _ _ _ h

theorem sharkStatus_out_generate_responses_to_user (s : Session) (r : ReactParams)
    (j : String) (h : sharkStatus s j = some "out") :
    sharkStatus (generate_shark_responses_to_user s r).1 j = some "out" := by
  simp only [generate_shark_responses_to_user]
  split
  · exact h
  · exact sharkStatus_out_process_shark_response _ _ _ _ _ h

theorem sharkStatus_out_handle_offer_decline (s : Session) (i : String) (g : GenParams)
    (j : String) (h : sharkStatus s j = some "out") :
    sharkStatus (handle_offer_decline s i g).1 j = some "out" := by
  rw [handle_offer_decline_spec]
  split
  · exact sharkStatus_out_preserved_set_status_out _ _ _
      (by rw [sharkStatus_set_confidence]; exact h)
  · split <;> (rw [sharkStatus_set_confidence]; exact h)

theorem sharkStatus_handle_counter_offer (s : Session) (i : String) (o : Offer)
    (aT eT : Option ℚ) (g : GenParams) (j : String) :
    sharkStatus (handle_counter_offer s i o aT eT g).1 j = sharkStatus s j := by
  simp only [handle_counter_offer]
  split
  · rfl
  · split <;> rfl

/-- C3 counterexample: after the judge Marcus has gone out
(`sessDeclined`: his offer `of1` was declined at confidence 35,
dropping him to 20 and out), countering that same offer still runs
`handle_counter_offer` with no status check and publishes a
`shark_message` attributed to the out judge Marcus. -/
theorem C3_counterexample :
    sharkStatus sessDeclined "marcus" = some "out"
  ∧ (⟨"shark_message", "marcus", "No deal.", none⟩ : Event)
      ∈ (offer_response sessDeclined "of1" "counter" (some ⟨some 150000, some 10⟩)
          gNoDeal).2.1 := by
  refine ⟨by decide, by decide⟩

/-- C3 (amended): a judge's `out` status is permanent — no operation
(user message, pitch complete, or any offer response) ever resets it
to `live`; but the decline/counter handlers do not check the status,
so events can still be attributed to an out judge (see the
counterexample). -/
theorem C3_out_judges_stay_out (s : Session) (j : String)
    (h : sharkStatus s j = some "out") :
    (∀ text r, sharkStatus (user_message s text r).1 j = some "out")
  ∧ (∀ transcript r, sharkStatus (pitch_complete s transcript r).1 j = some "out")
  ∧ (∀ offer_id action terms g,
        sharkStatus (offer_response s offer_id action terms g).1 j = some "out") := by
  refine ⟨?_, ?_, ?_⟩
  · intro text r
    unfold user_message
    split
    · exact h
    · exact sharkStatus_out_generate_responses_to_user _ _ _ h
  · intro transcript r
    simp only [pitch_complete]
    exact sharkStatus_out_generate_initial_reactions _ _ _
      (by rw [foldl_sharkStatus_eq _ (fun s a j => sharkStatus_set_confidence s a _ j)]; exact h)
  · intro offer_id action terms g
    unfold offer_response
    by_cases ha : action = "accept"
    · rw [if_pos ha]
      cases hg : get_offer s offer_id with
      | none => exact h
      | some offer => exact h
    · rw [if_neg ha]
      by_cases hd : action = "decline"
      · rw [if_pos hd]
        cases hg : get_offer s offer_id with
        | none => exact h
        | some offer => exact sharkStatus_out_handle_offer_decline _ _ _ _ h
      · rw [if_neg hd]
        by_cases hc : action = "counter"
        · rw [if_pos hc]
          cases hg : get_offer s offer_id with
          | none => cases terms <;> exact h
          | some offer =>
            cases terms with
            | none => exact h
            | some ct =>
              rw [sharkStatus_handle_counter_offer]
              exact h
        · rw [if_neg hc]
          exact h

/-- C3 witness: the permanence theorem applied to the concrete session
in which Marcus is out. -/
theorem C3_witness :
    sharkStatus (user_message sessDeclined "any further question" rIdle).1 "marcus"
      = some "out" :=
  (C3_out_judges_stay_out sessDeclined "marcus" (by decide)).1 "any further question" rIdle

/-- 51 `shark_message` events with pairwise-distinct dedup keys, used
by the broadcaster claims. -/
def evs51 : List Event :=
  (List.range 51).map (fun i => ⟨"shark_message", "m", "t" ++ toString i, none⟩)

set_option maxRecDepth 4000

/-- While the dedup set stays within 50 keys, publishing fresh
distinct `shark_message` events appends their keys in order and
enqueues every event. -/
theorem publishAll_fresh (enum : List String → List String) (sid : String) :
    ∀ (evs : List Event) (b : Broadcaster),
      (∀ e ∈ evs, e.type = "shark_message") →
      (b.recent ++ evs.map (dedupKey sid)).Nodup →
      b.recent.length + evs.length ≤ 50 →
      (publishAll enum sid b evs).recent = b.recent ++ evs.map (dedupKey sid)
      ∧ (publishAll enum sid b evs).queue = b.queue ++ evs := by
  intro evs
  induction evs with
  | nil => intro b _ _ _; simp [publishAll]
  | cons e rest ih =>
    intro b hty hnd hlen
    have hnd' := List.nodup_append.mp hnd
    have hkey : dedupKey sid e ∉ b.recent := fun hm => hnd'.2.2 hm (by simp)
    have hlen' : b.recent.length + 1 + rest.length ≤ 50 := by
      simp only [List.length_cons] at hlen
      omega
    have hstep : send_sse_event enum sid b e
        = { recent := b.recent ++ [dedupKey sid e], queue := b.queue ++ [e] } := by
      unfold send_sse_event
      rw [if_pos (hty e (by simp))]
      simp only
      have htrim : ¬ (b.recent ++ [dedupKey sid e]).length > 50 := by
        simp only [List.length_append, List.length_cons, List.length_nil]
        omega
      rw [if_neg hkey, if_neg htrim]
    have hb' : (publishAll enum sid b (e :: rest))
        = publishAll enum sid { recent := b.recent ++ [dedupKey sid e],
                                queue := b.queue ++ [e] } rest := by
      simp only [publishAll, List.foldl_cons, hstep]
    rw [hb']
    have hrec := ih { recent := b.recent ++ [dedupKey sid e], queue := b.queue ++ [e] }
      (fun x hx => hty x (by simp [hx]))
      (by simpa [List.append_assoc] using hnd)
      (by simp at hlen ⊢; omega)
    refine ⟨?_, ?_⟩
    · rw [hrec.1]
      simp
    · rw [hrec.2]
      simp

/-- C9 counterexample: publishing 51 distinct `shark_message` events
does trim the dedup set to 25 entries, but which 25 survive depends on
the Python set's unspecified (hash-randomised) enumeration order, not
on recency: under the reversed enumeration — a permutation the source
in no way rules out — the OLDEST key survives the trim and the newest
is evicted, contradicting "keeping the most recent 25 keys and
evicting the oldest 26". -/
theorem C9_counterexample :
    (publishAll List.reverse "s" ⟨[], []⟩ evs51).recent.length = 25
  ∧ "s-m-t0" ∈ (publishAll List.reverse "s" ⟨[], []⟩ evs51).recent
  ∧ "s-m-t50" ∉ (publishAll List.reverse "s" ⟨[], []⟩ evs51).recent := by
  refine ⟨by decide, by decide, by decide⟩

/-- C9 (amended): for every enumeration order of the dedup set (the
source converts a Python `set` to a list, so only that it is some
permutation is guaranteed), after publishing 51 `shark_message` events
with pairwise-distinct keys into a fresh session the dedup set is
trimmed to exactly 25 entries and all 51 events are enqueued; which 25
keys survive is decided by the enumeration order, not necessarily
recency.  A publish whose key is already in the set is silently
dropped and enqueues nothing. -/
theorem C9_dedup_cap_and_trim (enum : List String → List String) (sid : String)
    (evs : List Event)
    (hperm : ∀ l, (enum l).Perm l)
    (hty : ∀ e ∈ evs, e.type = "shark_message")
    (hnd : (evs.map (dedupKey sid)).Nodup)
    (hlen : evs.length = 51) :
    (publishAll enum sid ⟨[], []⟩ evs).recent.length = 25
  ∧ (publishAll enum sid ⟨[], []⟩ evs).queue = evs
  ∧ (∀ (b : Broadcaster) (e : Event), e.type = "shark_message" →
        dedupKey sid e ∈ b.recent → send_sse_event enum sid b e = b) := by
  have hne : evs ≠ [] := by intro h; rw [h] at hlen; simp at hlen
  have hsplit : evs.dropLast ++ [evs.getLast hne] = evs := List.dropLast_append_getLast hne
  set l := evs.dropLast with hl
  set e := evs.getLast hne with he
  have hlast : evs = l ++ [e] := hsplit.symm
  have hllen : l.length = 50 := by
    have := congrArg List.length hsplit
    simp at this
    omega
  have hnd2 : ((⟨[], []⟩ : Broadcaster).recent ++ l.map (dedupKey sid)).Nodup := by
    rw [hlast] at hnd
    simp only [List.map_append] at hnd
    exact (List.nodup_append.mp (by simpa using hnd)).1
  have hfresh := publishAll_fresh enum sid l ⟨[], []⟩
    (fun x hx => hty x (by rw [hlast]; exact List.mem_append_left _ hx))
    hnd2 (by simp [hllen])
  have hkey : dedupKey sid e ∉ l.map (dedupKey sid) := by
    rw [hlast] at hnd
    simp only [List.map_append] at hnd
    have := (List.nodup_append.mp hnd).2.2
    exact fun hm => this hm (by simp)
  have hstepPub : publishAll enum sid ⟨[], []⟩ evs
      = send_sse_event enum sid (publishAll enum sid ⟨[], []⟩ l) e := by
    rw [hlast]
    simp [publishAll, List.foldl_append]
  have hrec1 : (publishAll enum sid ⟨[], []⟩ l).recent = l.map (dedupKey sid) := by
    simpa using hfresh.1
  have hq1 : (publishAll enum sid ⟨[], []⟩ l).queue = l := by
    simpa using hfresh.2
  have hlen1 : (l.map (dedupKey sid) ++ [dedupKey sid e]).length = 51 := by
    simp [hllen]
  have hsend : send_sse_event enum sid (publishAll enum sid ⟨[], []⟩ l) e
      = { recent := (enum (l.map (dedupKey sid) ++ [dedupKey sid e])).drop
            ((enum (l.map (dedupKey sid) ++ [dedupKey sid e])).length - 25),
          queue := l ++ [e] } := by
    unfold send_sse_event
    rw [if_pos (hty e (by rw [hlast]; simp))]
    simp only [hrec1, hq1]
    rw [if_neg hkey, if_pos (by rw [hlen1]; omega)]
  have hpl : (enum (l.map (dedupKey sid) ++ [dedupKey sid e])).length = 51 := by
    rw [(hperm (l.map (dedupKey sid) ++ [dedupKey sid e])).length_eq]
    exact hlen1
  refine ⟨?_, ?_, ?_⟩
  · rw [hstepPub, hsend]
    simp only [List.length_drop, hpl]
  · rw [hstepPub, hsend, ← hlast]
  · intro b ev ht hm
    unfold send_sse_event
    rw [if_pos ht]
    simp only
    rw [if_pos hm]

/-- C9 witness: the trim theorem applied under the identity
enumeration to 51 concretely distinct messages. -/
theorem C9_witness :
    (publishAll (fun l => l) "s" ⟨[], []⟩ evs51).recent.length = 25
  ∧ (publishAll (fun l => l) "s" ⟨[], []⟩ evs51).queue = evs51 :=
  ⟨(C9_dedup_cap_and_trim (fun l => l) "s" evs51 (fun l => List.Perm.refl l)
      (by decide) (by decide) (by decide)).1,
   (C9_dedup_cap_and_trim (fun l => l) "s" evs51 (fun l => List.Perm.refl l)
      (by decide) (by decide) (by decide)).2.1⟩

example : calculate_initial_confidence "marcus" pMin = 35 := by decide

example : calculate_initial_confidence "richard" pMin = 40 := by decide

example : parse_offer_from_response "marcus" "I\x27ll give you $100,000 for 20% equity" pMin
    = some ⟨"", "marcus", 100000, 20, none, none, [], ""⟩ := by decide

example : get_offer sessOffer "of1" = some oMarcus := by decide

example : sessClosed.phase = "closed" := by decide

example : (pitch_complete sessClosed [] rIdle).1.phase = "qa" := by decide

example : sharkStatus sessDeclined "marcus" = some "out" := by decide

example : (⟨"shark_message", "marcus", "No deal.", none⟩ : Event)
    ∈ (offer_response sessDeclined "of1" "counter" (some ⟨some 150000, some 10⟩) gNoDeal).2.1 :=
  by decide

end SharkTank
